import Mathlib

/-!
Shallow embedding of the quote calculation engine of the injection-molding
quoting tool (src/src/App.jsx, `useQuoteCalculator` and the constant tables
it depends on).  JavaScript numbers are modelled as rationals (ℚ); the
calculator is a total function returning `Option CostBreakdown`, `none`
standing for the JavaScript `null`.
-/

/-- Bounding-box dimensions in millimetres (`analysisData.dimensions`). -/
structure Dimensions where
  length : ℚ
  width : ℚ
  height : ℚ
deriving Repr, DecidableEq

/-- The geometry result consumed by the calculator (`analysisData`). -/
structure Geometry where
  volume : ℚ
  dimensions : Dimensions
  wallThickness : ℚ
  accuracy : String
deriving Repr, DecidableEq

/-- A material catalog entry (an element of `MATERIALS`). -/
structure Material where
  name : String
  density : ℚ
  pricePerKg : ℚ
  factor : ℚ
deriving Repr, DecidableEq

/-- A machine tier catalog entry (an element of `MACHINE_RATES`). -/
structure MachineRate where
  size : String
  ratePerHour : ℚ
  maxMoldSize : ℚ
deriving Repr, DecidableEq

/-- The user-supplied process parameters (`parameters`). -/
structure ProcessParameters where
  materialId : String
  quantity : ℚ
  cavities : ℚ
  color : String
deriving Repr, DecidableEq

/-- The derived cost breakdown object returned by `useQuoteCalculator`. -/
structure CostBreakdown where
  materialCost : ℚ
  machineCost : ℚ
  moldCost : ℚ
  colorPremium : ℚ
  scrapCost : ℚ
  totalPerPart : ℚ
  cycleTime : ℚ
  partsPerHour : ℚ
  recommendedMachine : String
  totalQuote : ℚ
deriving Repr, DecidableEq

instance : Inhabited Material := ⟨{ name := "", density := 0, pricePerKg := 0, factor := 0 }⟩

instance : Inhabited MachineRate := ⟨{ size := "", ratePerHour := 0, maxMoldSize := 0 }⟩

/-- The static material catalog (App.jsx lines 18-22). -/
def MATERIALS : List Material :=
  [ { name := "ABS (Acrylonitrile Butadiene Styrene)", density := 1.05, pricePerKg := 3.50, factor := 0.8 },
    { name := "PP (Polypropylene)", density := 0.90, pricePerKg := 2.10, factor := 0.5 },
    { name := "PC (Polycarbonate)", density := 1.20, pricePerKg := 5.80, factor := 1.2 } ]

/-- The static machine tier catalog, ascending by capacity (App.jsx lines 23-27). -/
def MACHINE_RATES : List MachineRate :=
  [ { size := "Small (50-100T)", ratePerHour := 45, maxMoldSize := 300 },
    { size := "Medium (100-250T)", ratePerHour := 65, maxMoldSize := 550 },
    { size := "Large (250-500T)", ratePerHour := 90, maxMoldSize := 900 } ]

def MOLD_BASE_MULTIPLIER : ℚ := 2.8

def BASE_CYCLE_TIME_S : ℚ := 5

def THICKNESS_FACTOR : ℚ := 4

def SCRAP_RATE : ℚ := 0.05

def COLOR_PREMIUM_PERCENTAGE : ℚ := 0.02

/-- Material resolution (App.jsx line 41):
`MATERIALS.find(m => m.name === materialId) || MATERIALS[0]`,
generalised over the catalog the code closes over. -/
def resolveMaterialIn (materials : List Material) (materialId : String) : Material :=
  (materials.find? fun m => m.name == materialId).getD materials.headI

/-- Material resolution against the shipped catalog. -/
def resolveMaterial (materialId : String) : Material :=
  resolveMaterialIn MATERIALS materialId

/-- Machine tier selection (App.jsx line 62):
`MACHINE_RATES.find(m => moldSizeMM <= m.maxMoldSize) || MACHINE_RATES[MACHINE_RATES.length - 1]`,
generalised over the catalog the code closes over. -/
def selectMachineIn (machines : List MachineRate) (moldSizeMM : ℚ) : MachineRate :=
  (machines.find? fun m => decide (moldSizeMM ≤ m.maxMoldSize)).getD machines.getLastI

/-- Machine tier selection against the shipped catalog. -/
def selectMachine (moldSizeMM : ℚ) : MachineRate :=
  selectMachineIn MACHINE_RATES moldSizeMM

/-- The quote calculation pipeline of `useQuoteCalculator` (App.jsx lines 39-90),
with the two catalogs the JavaScript closes over passed explicitly.
The guard `!analysisData.volume || quantity <= 0 || cavities <= 0` returns
`null`: for a rational-valued `volume` the JavaScript falsiness test
`!analysisData.volume` holds exactly when `volume = 0`. -/
def computeQuote (materials : List Material) (machines : List MachineRate)
    (parameters : ProcessParameters) (analysisData : Geometry) : Option CostBreakdown :=
  let material := resolveMaterialIn materials parameters.materialId
  let volume := analysisData.volume
  let wallThickness := analysisData.wallThickness
  let dimensions := analysisData.dimensions
  if volume = 0 ∨ parameters.quantity ≤ 0 ∨ parameters.cavities ≤ 0 then none
  else
    -- 1. MATERIAL CALCULATIONS
    let weightG := volume * material.density
    let weightKg := weightG / 1000
    let materialCostRaw := weightKg * material.pricePerKg
    let colorPremium := materialCostRaw * COLOR_PREMIUM_PERCENTAGE
    let totalMaterialCost := materialCostRaw + colorPremium
    -- 2. MACHINE CALCULATIONS
    let cycleTime := BASE_CYCLE_TIME_S + wallThickness * THICKNESS_FACTOR
    let partsPerShot := parameters.cavities
    let partsPerMinute := (60 / cycleTime) * partsPerShot
    let partsPerHour := partsPerMinute * 60
    -- 3. MOLD & MACHINE SELECTION
    let moldSizeMM := max dimensions.length dimensions.width * MOLD_BASE_MULTIPLIER
    let recommendedMachine := selectMachineIn machines moldSizeMM
    let machineCostPerPart := recommendedMachine.ratePerHour / partsPerHour
    -- 4. MOLD AMORTIZATION
    let moldEstimate := 10000 + recommendedMachine.ratePerHour * 100
    let moldCostPerPart := moldEstimate / parameters.quantity
    -- 5. FINAL COST AGGREGATION
    let costBeforeScrap := totalMaterialCost + machineCostPerPart + moldCostPerPart
    let scrapCostPerPart := costBeforeScrap * SCRAP_RATE
    let totalPerPart := costBeforeScrap * (1 + SCRAP_RATE)
    let totalQuote := totalPerPart * parameters.quantity
    some
      { materialCost := totalMaterialCost
        machineCost := machineCostPerPart
        moldCost := moldCostPerPart
        colorPremium := colorPremium
        scrapCost := scrapCostPerPart
        totalPerPart := totalPerPart
        cycleTime := cycleTime
        partsPerHour := partsPerHour
        recommendedMachine := recommendedMachine.size
        totalQuote := totalQuote }

/-- `useQuoteCalculator` as shipped: the pipeline applied to the module-level
constant catalogs `MATERIALS` and `MACHINE_RATES`. -/
def useQuoteCalculator (parameters : ProcessParameters) (analysisData : Geometry) :
    Option CostBreakdown :=
  computeQuote MATERIALS MACHINE_RATES parameters analysisData

/-- Two material entries that agree on every field the cost formula reads
(name, density, pricePerKg), leaving only the dead `factor` field free. -/
def MaterialAgreesExceptFactor (a b : Material) : Prop :=
  a.name = b.name ∧ a.density = b.density ∧ a.pricePerKg = b.pricePerKg

/-- On inputs passing the guard, the pipeline returns `some` of the explicit
arithmetic of App.jsx lines 47-86 (definitional unfolding of the `let` chain). -/
theorem computeQuote_pos (materials : List Material) (machines : List MachineRate)
    (p : ProcessParameters) (g : Geometry)
    (hv : g.volume ≠ 0) (hq : ¬ p.quantity ≤ 0) (hc : ¬ p.cavities ≤ 0) :
    computeQuote materials machines p g =
      some
        { materialCost :=
            g.volume * (resolveMaterialIn materials p.materialId).density / 1000 *
                (resolveMaterialIn materials p.materialId).pricePerKg +
              g.volume * (resolveMaterialIn materials p.materialId).density / 1000 *
                (resolveMaterialIn materials p.materialId).pricePerKg * COLOR_PREMIUM_PERCENTAGE
          machineCost :=
            (selectMachineIn machines
                  (max g.dimensions.length g.dimensions.width * MOLD_BASE_MULTIPLIER)).ratePerHour /
              ((60 / (BASE_CYCLE_TIME_S + g.wallThickness * THICKNESS_FACTOR)) * p.cavities * 60)
          moldCost :=
            (10000 +
                (selectMachineIn machines
                    (max g.dimensions.length g.dimensions.width *
                      MOLD_BASE_MULTIPLIER)).ratePerHour * 100) /
              p.quantity
          colorPremium :=
            g.volume * (resolveMaterialIn materials p.materialId).density / 1000 *
              (resolveMaterialIn materials p.materialId).pricePerKg * COLOR_PREMIUM_PERCENTAGE
          scrapCost :=
            (g.volume * (resolveMaterialIn materials p.materialId).density / 1000 *
                  (resolveMaterialIn materials p.materialId).pricePerKg +
                g.volume * (resolveMaterialIn materials p.materialId).density / 1000 *
                  (resolveMaterialIn materials p.materialId).pricePerKg * COLOR_PREMIUM_PERCENTAGE +
                (selectMachineIn machines
                      (max g.dimensions.length g.dimensions.width *
                        MOLD_BASE_MULTIPLIER)).ratePerHour /
                  ((60 / (BASE_CYCLE_TIME_S + g.wallThickness * THICKNESS_FACTOR)) *
                    p.cavities * 60) +
                (10000 +
                    (selectMachineIn machines
                        (max g.dimensions.length g.dimensions.width *
                          MOLD_BASE_MULTIPLIER)).ratePerHour * 100) /
                  p.quantity) * SCRAP_RATE
          totalPerPart :=
            (g.volume * (resolveMaterialIn materials p.materialId).density / 1000 *
                  (resolveMaterialIn materials p.materialId).pricePerKg +
                g.volume * (resolveMaterialIn materials p.materialId).density / 1000 *
                  (resolveMaterialIn materials p.materialId).pricePerKg * COLOR_PREMIUM_PERCENTAGE +
                (selectMachineIn machines
                      (max g.dimensions.length g.dimensions.width *
                        MOLD_BASE_MULTIPLIER)).ratePerHour /
                  ((60 / (BASE_CYCLE_TIME_S + g.wallThickness * THICKNESS_FACTOR)) *
                    p.cavities * 60) +
                (10000 +
                    (selectMachineIn machines
                        (max g.dimensions.length g.dimensions.width *
                          MOLD_BASE_MULTIPLIER)).ratePerHour * 100) /
                  p.quantity) * (1 + SCRAP_RATE)
          cycleTime := BASE_CYCLE_TIME_S + g.wallThickness * THICKNESS_FACTOR
          partsPerHour :=
            (60 / (BASE_CYCLE_TIME_S + g.wallThickness * THICKNESS_FACTOR)) * p.cavities * 60
          recommendedMachine :=
            (selectMachineIn machines
                (max g.dimensions.length g.dimensions.width * MOLD_BASE_MULTIPLIER)).size
          totalQuote :=
            (g.volume * (resolveMaterialIn materials p.materialId).density / 1000 *
                  (resolveMaterialIn materials p.materialId).pricePerKg +
                g.volume * (resolveMaterialIn materials p.materialId).density / 1000 *
                  (resolveMaterialIn materials p.materialId).pricePerKg * COLOR_PREMIUM_PERCENTAGE +
                (selectMachineIn machines
                      (max g.dimensions.length g.dimensions.width *
                        MOLD_BASE_MULTIPLIER)).ratePerHour /
                  ((60 / (BASE_CYCLE_TIME_S + g.wallThickness * THICKNESS_FACTOR)) *
                    p.cavities * 60) +
                (10000 +
                    (selectMachineIn machines
                        (max g.dimensions.length g.dimensions.width *
                          MOLD_BASE_MULTIPLIER)).ratePerHour * 100) /
                  p.quantity) * (1 + SCRAP_RATE) * p.quantity } := by
  unfold computeQuote
  rw [if_neg (by push_neg; exact ⟨hv, lt_of_not_le hq, lt_of_not_le hc⟩)]

/-- On inputs failing the guard, the pipeline returns `none`. -/
theorem computeQuote_none (materials : List Material) (machines : List MachineRate)
    (p : ProcessParameters) (g : Geometry)
    (h : g.volume = 0 ∨ p.quantity ≤ 0 ∨ p.cavities ≤ 0) :
    computeQuote materials machines p g = none := by
  unfold computeQuote
  rw [if_pos h]

/-- Looking up the ABS entry by its exact name returns the ABS entry. -/
theorem resolveMaterial_ABS :
    resolveMaterial "ABS (Acrylonitrile Butadiene Styrene)" =
      { name := "ABS (Acrylonitrile Butadiene Styrene)", density := 1.05,
        pricePerKg := 3.50, factor := 0.8 } := rfl

/-- Machine selection over the shipped catalog, as a three-way case split. -/
theorem selectMachine_eq (ms : ℚ) :
    selectMachine ms =
      if ms ≤ 300 then { size := "Small (50-100T)", ratePerHour := 45, maxMoldSize := 300 }
      else if ms ≤ 550 then { size := "Medium (100-250T)", ratePerHour := 65, maxMoldSize := 550 }
      else { size := "Large (250-500T)", ratePerHour := 90, maxMoldSize := 900 } := by
  unfold selectMachine selectMachineIn MACHINE_RATES
  by_cases h1 : ms ≤ 300 <;> by_cases h2 : ms ≤ 550 <;> by_cases h3 : ms ≤ 900 <;>
    simp [List.find?, h1, h2, h3, List.getLastI]

/-- The selected machine always has a strictly positive hourly rate. -/
theorem selectMachine_rate_pos (ms : ℚ) : 0 < (selectMachine ms).ratePerHour := by
  rw [selectMachine_eq]
  split_ifs <;> norm_num

/-- The resolved material is always an entry of the shipped catalog. -/
theorem resolveMaterial_mem (mid : String) : resolveMaterial mid ∈ MATERIALS := by
  unfold resolveMaterial resolveMaterialIn
  rcases h : MATERIALS.find? (fun m => m.name == mid) with _ | m
  · rw [h]
    simp [List.headI, MATERIALS]
  · rw [h]
    simpa using List.mem_of_find?_eq_some h

/-- Every shipped material has strictly positive density and price. -/
theorem resolveMaterial_pos (mid : String) :
    0 < (resolveMaterial mid).density ∧ 0 < (resolveMaterial mid).pricePerKg := by
  have h := resolveMaterial_mem mid
  rw [MATERIALS] at h
  simp only [List.mem_cons, List.not_mem_nil, or_false] at h
  rcases h with h | h | h <;> rw [h] <;> constructor <;> norm_num

/-- C1 counterexample: a strictly negative volume (here `-1`) is truthy in the
JavaScript guard `!analysisData.volume`, so the calculator does NOT return
`null` — refuting "volume <= 0 yields no result". -/
theorem C1_negative_volume_counterexample :
    (-1 : ℚ) < 0 ∧
      useQuoteCalculator
        { materialId := "ABS (Acrylonitrile Butadiene Styrene)", quantity := 10,
          cavities := 1, color := "natural" }
        { volume := -1, dimensions := { length := 10, width := 10, height := 10 },
          wallThickness := 2, accuracy := "high" } ≠ none := by
  refine ⟨by norm_num, ?_⟩
  rw [useQuoteCalculator, computeQuote_pos _ _ _ _ (by norm_num) (by norm_num) (by norm_num)]
  simp

/-- C1 (amended): the quote calculator returns no result (null) exactly when
`geometry.volume = 0` (the JavaScript falsiness test), `parameters.quantity <= 0`,
or `parameters.cavities <= 0`; it never throws, and a strictly negative volume
passes the guard and yields a breakdown. -/
theorem C1_none_iff (p : ProcessParameters) (g : Geometry) :
    useQuoteCalculator p g = none ↔
      g.volume = 0 ∨ p.quantity ≤ 0 ∨ p.cavities ≤ 0 := by
  constructor
  · intro h
    by_contra hcon
    rw [not_or, not_or] at hcon
    obtain ⟨hv, hq, hc⟩ := hcon
    rw [useQuoteCalculator, computeQuote_pos _ _ _ _ hv hq hc] at h
    exact Option.noConfusion h
  · intro h
    exact computeQuote_none _ _ _ _ h

/-- C2: the code has no degenerate-throughput guard.  At wallThickness = 10^6
(otherwise valid input) the computed partsPerHour is below 1/1000 — "at or near
zero" — yet the calculator still returns a breakdown (machine cost 50000.0625)
instead of the not-computable `null` the spec's defined policy requires. -/
theorem C2_degenerate_throughput_unguarded :
    ∃ bd,
      useQuoteCalculator
        { materialId := "ABS (Acrylonitrile Butadiene Styrene)", quantity := 100,
          cavities := 1, color := "natural" }
        { volume := 100, dimensions := { length := 100, width := 100, height := 100 },
          wallThickness := 1000000, accuracy := "high" } = some bd ∧
      0 < bd.partsPerHour ∧ bd.partsPerHour < 1 / 1000 ∧ bd.machineCost = 50000.0625 := by
  rw [useQuoteCalculator, computeQuote_pos _ _ _ _ (by norm_num) (by norm_num) (by norm_num)]
  refine ⟨_, rfl, ?_, ?_, ?_⟩ <;>
    norm_num [resolveMaterialIn, MATERIALS, List.find?, List.headI, selectMachineIn,
      MACHINE_RATES, List.getLastI, COLOR_PREMIUM_PERCENTAGE, SCRAP_RATE, BASE_CYCLE_TIME_S,
      THICKNESS_FACTOR, MOLD_BASE_MULTIPLIER]

/-- C3: the worked example scenario of the spec, checked field by field:
cycleTime 12.2, partsPerHour ≈ 295.08, Small tier, machineCost 0.1525,
colorPremium ≈ 0.01377, materialCost ≈ 0.7023, moldCost 14.5,
totalPerPart ≈ 16.1225, totalQuote ≈ 16122.5. -/
theorem C3_example_scenario :
    ∃ bd,
      useQuoteCalculator
        { materialId := "ABS (Acrylonitrile Butadiene Styrene)", quantity := 1000,
          cavities := 1, color := "natural" }
        { volume := 187.35, dimensions := { length := 65, width := 42, height := 75 },
          wallThickness := 1.8, accuracy := "high" } = some bd ∧
      bd.cycleTime = 12.2 ∧
      |bd.partsPerHour - 295.08| < 0.01 ∧
      bd.recommendedMachine = "Small (50-100T)" ∧
      bd.machineCost = 0.1525 ∧
      |bd.colorPremium - 0.01377| < 0.0001 ∧
      |bd.materialCost - 0.7023| < 0.0001 ∧
      bd.moldCost = 14.5 ∧
      |bd.totalPerPart - 16.1225| < 0.001 ∧
      |bd.totalQuote - 16122.5| < 0.1 := by
  rw [useQuoteCalculator, computeQuote_pos _ _ _ _ (by norm_num) (by norm_num) (by norm_num)]
  refine ⟨_, rfl, ?_, ?_, ?_, ?_, ?_, ?_, ?_, ?_, ?_⟩ <;>
    norm_num [resolveMaterialIn, MATERIALS, List.find?, List.headI, selectMachineIn,
      MACHINE_RATES, List.getLastI, COLOR_PREMIUM_PERCENTAGE, SCRAP_RATE, BASE_CYCLE_TIME_S,
      THICKNESS_FACTOR, MOLD_BASE_MULTIPLIER, abs_lt]

/-- C4: for every computable input, with moldSizeMM = max(length, width) * 2.8,
the recommended machine is the minimal-capacity qualifying tier of the
ascending catalog (its maxMoldSize bounds every qualifying tier's); when no
tier qualifies the largest tier is selected, and a breakdown is produced. -/
theorem C4_machine_tier_selection (p : ProcessParameters) (g : Geometry) (ms : ℚ)
    (hv : g.volume ≠ 0) (hq : 0 < p.quantity) (hc : 0 < p.cavities)
    (hms : ms = max g.dimensions.length g.dimensions.width * MOLD_BASE_MULTIPLIER) :
    ∃ bd, useQuoteCalculator p g = some bd ∧
      bd.recommendedMachine = (selectMachine ms).size ∧
      selectMachine ms ∈ MACHINE_RATES ∧
      (∀ m ∈ MACHINE_RATES, ms ≤ m.maxMoldSize →
          ms ≤ (selectMachine ms).maxMoldSize ∧
          (selectMachine ms).maxMoldSize ≤ m.maxMoldSize) ∧
      ((∀ m ∈ MACHINE_RATES, m.maxMoldSize < ms) →
        selectMachine ms = { size := "Large (250-500T)", ratePerHour := 90, maxMoldSize := 900 }) := by
  subst hms
  rw [useQuoteCalculator, computeQuote_pos _ _ _ _ hv (not_le.mpr hq) (not_le.mpr hc)]
  set ms := max g.dimensions.length g.dimensions.width * MOLD_BASE_MULTIPLIER with hms
  refine ⟨_, rfl, rfl, ?_, ?_, ?_⟩
  · rw [selectMachine_eq]
    split_ifs <;> simp [MACHINE_RATES]
  · intro m hm hle
    simp only [MACHINE_RATES, List.mem_cons, List.not_mem_nil, or_false] at hm
    rw [selectMachine_eq]
    rcases hm with rfl | rfl | rfl <;> split_ifs <;>
      simp_all <;> constructor <;> linarith
  · intro hall
    have h1 := hall { size := "Small (50-100T)", ratePerHour := 45, maxMoldSize := 300 }
      (by simp [MACHINE_RATES])
    have h2 := hall { size := "Medium (100-250T)", ratePerHour := 65, maxMoldSize := 550 }
      (by simp [MACHINE_RATES])
    rw [selectMachine_eq]
    split_ifs with i1 i2
    · simp only at h1; linarith
    · simp only at h2; linarith
    · rfl

/-- C4 witness: the selection property instantiated at a concrete computable
input whose mold size 420 lands in the Medium tier. -/
theorem C4_machine_tier_selection_witness :
    ∃ bd,
      useQuoteCalculator
        { materialId := "ABS (Acrylonitrile Butadiene Styrene)", quantity := 50,
          cavities := 2, color := "natural" }
        { volume := 50, dimensions := { length := 150, width := 100, height := 30 },
          wallThickness := 2, accuracy := "high" } = some bd ∧
      bd.recommendedMachine = (selectMachine 420).size ∧
      selectMachine 420 ∈ MACHINE_RATES ∧
      (∀ m ∈ MACHINE_RATES, (420 : ℚ) ≤ m.maxMoldSize →
          (420 : ℚ) ≤ (selectMachine 420).maxMoldSize ∧
          (selectMachine 420).maxMoldSize ≤ m.maxMoldSize) ∧
      ((∀ m ∈ MACHINE_RATES, m.maxMoldSize < (420 : ℚ)) →
        selectMachine 420 = { size := "Large (250-500T)", ratePerHour := 90, maxMoldSize := 900 }) :=
  C4_machine_tier_selection _ _ 420 (by norm_num) (by norm_num) (by norm_num)
    (by norm_num [MOLD_BASE_MULTIPLIER])

/-- C5: the aggregation identities hold exactly for every computable input:
totalQuote = totalPerPart * quantity, totalPerPart = costBeforeScrap * (1 + SCRAP_RATE),
scrapCost = costBeforeScrap * SCRAP_RATE, and totalPerPart - scrapCost = costBeforeScrap,
where costBeforeScrap = materialCost + machineCost + moldCost. -/
theorem C5_aggregation_identities (p : ProcessParameters) (g : Geometry) (bd : CostBreakdown)
    (h : useQuoteCalculator p g = some bd) :
    bd.totalQuote = bd.totalPerPart * p.quantity ∧
    bd.totalPerPart = (bd.materialCost + bd.machineCost + bd.moldCost) * (1 + SCRAP_RATE) ∧
    bd.scrapCost = (bd.materialCost + bd.machineCost + bd.moldCost) * SCRAP_RATE ∧
    bd.totalPerPart - bd.scrapCost = bd.materialCost + bd.machineCost + bd.moldCost := by
  by_cases hg : g.volume = 0 ∨ p.quantity ≤ 0 ∨ p.cavities ≤ 0
  · rw [useQuoteCalculator, computeQuote_none _ _ _ _ hg] at h
    exact Option.noConfusion h
  · rw [not_or, not_or] at hg
    obtain ⟨hv, hq, hc⟩ := hg
    rw [useQuoteCalculator, computeQuote_pos _ _ _ _ hv hq hc] at h
    obtain rfl := (Option.some_inj.mp h).symm
    refine ⟨rfl, rfl, rfl, ?_⟩
    dsimp only
    ring

/-- C5 witness: the identities instantiated at a concrete computable input. -/
theorem C5_aggregation_identities_witness :
    (73247.475 : ℚ) = 5.05155 * 14500 ∧
    (5.05155 : ℚ) = (3.7485 + 0.0625 + 1) * (1 + SCRAP_RATE) ∧
    (0.24055 : ℚ) = (3.7485 + 0.0625 + 1) * SCRAP_RATE ∧
    (5.05155 : ℚ) - 0.24055 = 3.7485 + 0.0625 + 1 :=
  C5_aggregation_identities
    { materialId := "ABS (Acrylonitrile Butadiene Styrene)", quantity := 14500,
      cavities := 1, color := "natural" }
    { volume := 1000, dimensions := { length := 100, width := 100, height := 50 },
      wallThickness := 0, accuracy := "high" }
    { materialCost := 3.7485, machineCost := 0.0625, moldCost := 1, colorPremium := 0.0735,
      scrapCost := 0.24055, totalPerPart := 5.05155, cycleTime := 5, partsPerHour := 720,
      recommendedMachine := "Small (50-100T)", totalQuote := 73247.475 }
    (by rw [useQuoteCalculator, computeQuote_pos _ _ _ _ (by norm_num) (by norm_num) (by norm_num)]
        norm_num [resolveMaterialIn, MATERIALS, List.find?, List.headI, selectMachineIn,
          MACHINE_RATES, List.getLastI, COLOR_PREMIUM_PERCENTAGE, SCRAP_RATE, BASE_CYCLE_TIME_S,
          THICKNESS_FACTOR, MOLD_BASE_MULTIPLIER])

/-- C6: holding everything else fixed, a strictly larger positive quantity gives
a strictly smaller per-part mold cost, and identical material and machine costs. -/
theorem C6_quantity_amortization (g : Geometry) (mid col : String) (cav q1 q2 : ℚ)
    (hv : g.volume ≠ 0) (h1 : 0 < q1) (h12 : q1 < q2) (hc : 0 < cav) :
    ∃ bd1 bd2,
      useQuoteCalculator { materialId := mid, quantity := q1, cavities := cav, color := col } g
          = some bd1 ∧
      useQuoteCalculator { materialId := mid, quantity := q2, cavities := cav, color := col } g
          = some bd2 ∧
      bd2.moldCost < bd1.moldCost ∧
      bd1.materialCost = bd2.materialCost ∧
      bd1.machineCost = bd2.machineCost := by
  simp only [useQuoteCalculator]
  rw [computeQuote_pos _ _ _ _ hv (not_le.mpr h1) (not_le.mpr hc),
      computeQuote_pos _ _ _ _ hv (not_le.mpr (h1.trans h12)) (not_le.mpr hc)]
  refine ⟨_, _, rfl, rfl, ?_, rfl, rfl⟩
  dsimp only
  have hr : 0 < (selectMachineIn MACHINE_RATES
      (max g.dimensions.length g.dimensions.width * MOLD_BASE_MULTIPLIER)).ratePerHour :=
    selectMachine_rate_pos _
  exact div_lt_div_of_pos_left (by linarith) h1 h12

/-- C6 witness: the amortization comparison at quantities 100 < 200. -/
theorem C6_quantity_amortization_witness :
    ∃ bd1 bd2,
      useQuoteCalculator
          { materialId := "ABS (Acrylonitrile Butadiene Styrene)", quantity := 100,
            cavities := 1, color := "natural" }
          { volume := 100, dimensions := { length := 100, width := 100, height := 100 },
            wallThickness := 2, accuracy := "high" } = some bd1 ∧
      useQuoteCalculator
          { materialId := "ABS (Acrylonitrile Butadiene Styrene)", quantity := 200,
            cavities := 1, color := "natural" }
          { volume := 100, dimensions := { length := 100, width := 100, height := 100 },
            wallThickness := 2, accuracy := "high" } = some bd2 ∧
      bd2.moldCost < bd1.moldCost ∧
      bd1.materialCost = bd2.materialCost ∧
      bd1.machineCost = bd2.machineCost :=
  C6_quantity_amortization _ "ABS (Acrylonitrile Butadiene Styrene)" "natural" 1 100 200
    (by norm_num) (by norm_num) (by norm_num) (by norm_num)

/-- C7: holding everything else fixed, a strictly larger (nonnegative) wall
thickness gives a strictly larger cycle time and strictly smaller partsPerHour. -/
theorem C7_wallThickness_monotonic (p : ProcessParameters) (vol : ℚ) (dims : Dimensions)
    (acc : String) (t1 t2 : ℚ) (hv : vol ≠ 0) (hq : 0 < p.quantity) (hc : 0 < p.cavities)
    (ht0 : 0 ≤ t1) (ht : t1 < t2) :
    ∃ bd1 bd2,
      useQuoteCalculator p
          { volume := vol, dimensions := dims, wallThickness := t1, accuracy := acc }
          = some bd1 ∧
      useQuoteCalculator p
          { volume := vol, dimensions := dims, wallThickness := t2, accuracy := acc }
          = some bd2 ∧
      bd1.cycleTime < bd2.cycleTime ∧ bd2.partsPerHour < bd1.partsPerHour := by
  simp only [useQuoteCalculator]
  rw [computeQuote_pos _ _ _ _ hv (not_le.mpr hq) (not_le.mpr hc),
      computeQuote_pos _ _ _ _ hv (not_le.mpr hq) (not_le.mpr hc)]
  refine ⟨_, _, rfl, rfl, ?_, ?_⟩ <;>
    dsimp only <;> rw [BASE_CYCLE_TIME_S, THICKNESS_FACTOR]
  · linarith
  · have hc1 : (0 : ℚ) < 5 + t1 * 4 := by linarith
    have hdiv : 60 / (5 + t2 * 4) < 60 / (5 + t1 * 4) :=
      div_lt_div_of_pos_left (by norm_num) hc1 (by linarith)
    have hmul : 60 / (5 + t2 * 4) * p.cavities < 60 / (5 + t1 * 4) * p.cavities :=
      mul_lt_mul_of_pos_right hdiv hc
    exact mul_lt_mul_of_pos_right hmul (by norm_num)

/-- C7 witness: the monotonicity comparison at wall thicknesses 1.8 < 3. -/
theorem C7_wallThickness_monotonic_witness :
    ∃ bd1 bd2,
      useQuoteCalculator
          { materialId := "ABS (Acrylonitrile Butadiene Styrene)", quantity := 1000,
            cavities := 1, color := "natural" }
          { volume := 187.35, dimensions := { length := 65, width := 42, height := 75 },
            wallThickness := 1.8, accuracy := "high" } = some bd1 ∧
      useQuoteCalculator
          { materialId := "ABS (Acrylonitrile Butadiene Styrene)", quantity := 1000,
            cavities := 1, color := "natural" }
          { volume := 187.35, dimensions := { length := 65, width := 42, height := 75 },
            wallThickness := 3, accuracy := "high" } = some bd2 ∧
      bd1.cycleTime < bd2.cycleTime ∧ bd2.partsPerHour < bd1.partsPerHour :=
  C7_wallThickness_monotonic _ 187.35 { length := 65, width := 42, height := 75 } "high" 1.8 3
    (by norm_num) (by norm_num) (by norm_num) (by norm_num) (by norm_num)

/-- C8: material resolution never fails: a materialId matching no catalog entry
resolves to the catalog's first entry and a breakdown is still produced for an
otherwise computable input; a matching materialId resolves to the matched entry. -/
theorem C8_material_resolution (mid : String) (g : Geometry) (q cav : ℚ) (col : String)
    (hv : g.volume ≠ 0) (hq : 0 < q) (hc : 0 < cav) :
    (MATERIALS.find? (fun m => m.name == mid) = none →
        resolveMaterial mid = MATERIALS.headI) ∧
    (∀ m, MATERIALS.find? (fun m0 => m0.name == mid) = some m → resolveMaterial mid = m) ∧
    (useQuoteCalculator { materialId := mid, quantity := q, cavities := cav, color := col }
        g).isSome = true := by
  refine ⟨?_, ?_, ?_⟩
  · intro h
    unfold resolveMaterial resolveMaterialIn
    rw [h]
    rfl
  · intro m h
    unfold resolveMaterial resolveMaterialIn
    rw [h]
    rfl
  · rw [useQuoteCalculator, computeQuote_pos _ _ _ _ hv (not_le.mpr hq) (not_le.mpr hc)]
    rfl

/-- C8 witness: the resolution properties instantiated at the unknown
materialId "PLA" and a concrete computable input. -/
theorem C8_material_resolution_witness :
    (MATERIALS.find? (fun m => m.name == "PLA") = none →
        resolveMaterial "PLA" = MATERIALS.headI) ∧
    (∀ m, MATERIALS.find? (fun m0 => m0.name == "PLA") = some m → resolveMaterial "PLA" = m) ∧
    (useQuoteCalculator
        { materialId := "PLA", quantity := 10, cavities := 1, color := "natural" }
        { volume := 100, dimensions := { length := 50, width := 50, height := 50 },
          wallThickness := 2, accuracy := "high" }).isSome = true :=
  C8_material_resolution "PLA"
    { volume := 100, dimensions := { length := 50, width := 50, height := 50 },
      wallThickness := 2, accuracy := "high" }
    10 1 "natural" (by norm_num) (by norm_num) (by norm_num)

/-- Name-based lookup returns related results on catalogs that agree except
on the dead `factor` field. -/
theorem find?_materialAgrees {l1 l2 : List Material}
    (h : List.Forall₂ MaterialAgreesExceptFactor l1 l2) (mid : String) :
    (l1.find? (fun m => m.name == mid) = none ∧ l2.find? (fun m => m.name == mid) = none) ∨
    ∃ a b, MaterialAgreesExceptFactor a b ∧
      l1.find? (fun m => m.name == mid) = some a ∧
      l2.find? (fun m => m.name == mid) = some b := by
  induction h with
  | nil => exact Or.inl ⟨rfl, rfl⟩
  | @cons a b l1' l2' hab htl ih =>
      by_cases hn : (a.name == mid) = true
      · have hbn : (b.name == mid) = true := by rw [← hab.1]; exact hn
        exact Or.inr ⟨a, b, hab, List.find?_cons_of_pos _ hn, List.find?_cons_of_pos _ hbn⟩
      · have hbn : ¬ (b.name == mid) = true := by rw [← hab.1]; exact hn
        rw [List.find?_cons_of_neg _ (by simpa using hn),
          List.find?_cons_of_neg _ (by simpa using hbn)]
        exact ih

/-- The first entries of catalogs related except on `factor` are related. -/
theorem headI_materialAgrees {l1 l2 : List Material}
    (h : List.Forall₂ MaterialAgreesExceptFactor l1 l2) :
    MaterialAgreesExceptFactor l1.headI l2.headI := by
  cases h with
  | nil => exact ⟨rfl, rfl, rfl⟩
  | cons hab _ => exact hab

/-- Material resolution returns related materials on catalogs related except
on `factor`, for any materialId (matching or not). -/
theorem resolveMaterialIn_agrees {l1 l2 : List Material}
    (h : List.Forall₂ MaterialAgreesExceptFactor l1 l2) (mid : String) :
    MaterialAgreesExceptFactor (resolveMaterialIn l1 mid) (resolveMaterialIn l2 mid) := by
  unfold resolveMaterialIn
  rcases find?_materialAgrees h mid with ⟨h1, h2⟩ | ⟨a, b, hab, h1, h2⟩ <;> rw [h1, h2]
  · exact headI_materialAgrees h
  · exact hab

/-- C9: noninterference of inert inputs — two runs that differ only in the
color parameter, the geometry accuracy tag, the materials' `factor` fields,
and/or dimensions.height produce identical cost breakdowns. -/
theorem C9_inert_inputs (m1 m2 : List Material) (mach : List MachineRate)
    (p1 p2 : ProcessParameters) (g1 g2 : Geometry)
    (hm : List.Forall₂ MaterialAgreesExceptFactor m1 m2)
    (hpid : p1.materialId = p2.materialId) (hq : p1.quantity = p2.quantity)
    (hcav : p1.cavities = p2.cavities) (hvol : g1.volume = g2.volume)
    (hwt : g1.wallThickness = g2.wallThickness)
    (hlen : g1.dimensions.length = g2.dimensions.length)
    (hwid : g1.dimensions.width = g2.dimensions.width) :
    computeQuote m1 mach p1 g1 = computeQuote m2 mach p2 g2 := by
  obtain ⟨hn, hd, hp⟩ := resolveMaterialIn_agrees hm p1.materialId
  rw [hpid] at hd hp
  by_cases hg : g1.volume = 0 ∨ p1.quantity ≤ 0 ∨ p1.cavities ≤ 0
  · rw [computeQuote_none _ _ _ _ hg,
      computeQuote_none _ _ _ _ (by rw [← hvol, ← hq, ← hcav]; exact hg)]
  · rw [not_or, not_or] at hg
    obtain ⟨hv, hqq, hcc⟩ := hg
    rw [computeQuote_pos _ _ _ _ hv hqq hcc,
      computeQuote_pos _ _ _ _ (hvol ▸ hv) (hq ▸ hqq) (hcav ▸ hcc)]
    rw [hpid, hq, hcav, hvol, hwt, hlen, hwid, hd, hp]

/-- C9 witness: concrete runs differing in color, accuracy, all `factor`
fields, and height produce the same breakdown. -/
theorem C9_inert_inputs_witness :
    computeQuote MATERIALS MACHINE_RATES
        { materialId := "ABS (Acrylonitrile Butadiene Styrene)", quantity := 500,
          cavities := 2, color := "natural" }
        { volume := 50, dimensions := { length := 60, width := 40, height := 75 },
          wallThickness := 2, accuracy := "high" } =
      computeQuote
        [ { name := "ABS (Acrylonitrile Butadiene Styrene)", density := 1.05,
            pricePerKg := 3.50, factor := 0 },
          { name := "PP (Polypropylene)", density := 0.90, pricePerKg := 2.10, factor := 0 },
          { name := "PC (Polycarbonate)", density := 1.20, pricePerKg := 5.80, factor := 0 } ]
        MACHINE_RATES
        { materialId := "ABS (Acrylonitrile Butadiene Styrene)", quantity := 500,
          cavities := 2, color := "black" }
        { volume := 50, dimensions := { length := 60, width := 40, height := 100 },
          wallThickness := 2, accuracy := "mocked" } :=
  C9_inert_inputs _ _ _ _ _ _ _
    (by rw [MATERIALS]
        exact List.Forall₂.cons ⟨rfl, rfl, rfl⟩ (List.Forall₂.cons ⟨rfl, rfl, rfl⟩
          (List.Forall₂.cons ⟨rfl, rfl, rfl⟩ List.Forall₂.nil)))
    rfl rfl rfl rfl rfl rfl rfl

/-- C10: for every input with volume > 0, quantity > 0, cavities > 0,
wallThickness ≥ 0 and the shipped catalogs, a breakdown is returned and every
numeric field is strictly positive, cycleTime ≥ BASE_CYCLE_TIME_S, and
partsPerHour > 0 (so the machine-cost division never divides by zero). -/
theorem C10_breakdown_positive (p : ProcessParameters) (g : Geometry)
    (hv : 0 < g.volume) (hq : 0 < p.quantity) (hc : 0 < p.cavities)
    (hw : 0 ≤ g.wallThickness) :
    ∃ bd, useQuoteCalculator p g = some bd ∧
      0 < bd.materialCost ∧ 0 < bd.machineCost ∧ 0 < bd.moldCost ∧
      0 < bd.colorPremium ∧ 0 < bd.scrapCost ∧ 0 < bd.totalPerPart ∧ 0 < bd.totalQuote ∧
      BASE_CYCLE_TIME_S ≤ bd.cycleTime ∧ 0 < bd.partsPerHour := by
  have hd : 0 < (resolveMaterialIn MATERIALS p.materialId).density :=
    (resolveMaterial_pos p.materialId).1
  have hpk : 0 < (resolveMaterialIn MATERIALS p.materialId).pricePerKg :=
    (resolveMaterial_pos p.materialId).2
  have hr : 0 < (selectMachineIn MACHINE_RATES
      (max g.dimensions.length g.dimensions.width * MOLD_BASE_MULTIPLIER)).ratePerHour :=
    selectMachine_rate_pos _
  have h4 : 0 ≤ g.wallThickness * THICKNESS_FACTOR :=
    mul_nonneg hw (by rw [THICKNESS_FACTOR]; norm_num)
  have hct : 0 < BASE_CYCLE_TIME_S + g.wallThickness * THICKNESS_FACTOR := by
    rw [BASE_CYCLE_TIME_S]
    linarith
  have hpph : 0 < 60 / (BASE_CYCLE_TIME_S + g.wallThickness * THICKNESS_FACTOR)
      * p.cavities * 60 :=
    mul_pos (mul_pos (div_pos (by norm_num) hct) hc) (by norm_num)
  have hraw : 0 < g.volume * (resolveMaterialIn MATERIALS p.materialId).density / 1000 *
      (resolveMaterialIn MATERIALS p.materialId).pricePerKg :=
    mul_pos (div_pos (mul_pos hv hd) (by norm_num)) hpk
  have hcp : 0 < g.volume * (resolveMaterialIn MATERIALS p.materialId).density / 1000 *
      (resolveMaterialIn MATERIALS p.materialId).pricePerKg * COLOR_PREMIUM_PERCENTAGE :=
    mul_pos hraw (by rw [COLOR_PREMIUM_PERCENTAGE]; norm_num)
  have hmc : 0 < g.volume * (resolveMaterialIn MATERIALS p.materialId).density / 1000 *
        (resolveMaterialIn MATERIALS p.materialId).pricePerKg +
      g.volume * (resolveMaterialIn MATERIALS p.materialId).density / 1000 *
        (resolveMaterialIn MATERIALS p.materialId).pricePerKg * COLOR_PREMIUM_PERCENTAGE := by
    linarith
  have hmach : 0 < (selectMachineIn MACHINE_RATES
        (max g.dimensions.length g.dimensions.width * MOLD_BASE_MULTIPLIER)).ratePerHour /
      (60 / (BASE_CYCLE_TIME_S + g.wallThickness * THICKNESS_FACTOR) * p.cavities * 60) :=
    div_pos hr hpph
  have hmold : 0 < (10000 + (selectMachineIn MACHINE_RATES
        (max g.dimensions.length g.dimensions.width * MOLD_BASE_MULTIPLIER)).ratePerHour * 100) /
      p.quantity :=
    div_pos (by linarith) hq
  have hcbs : 0 < g.volume * (resolveMaterialIn MATERIALS p.materialId).density / 1000 *
        (resolveMaterialIn MATERIALS p.materialId).pricePerKg +
      g.volume * (resolveMaterialIn MATERIALS p.materialId).density / 1000 *
        (resolveMaterialIn MATERIALS p.materialId).pricePerKg * COLOR_PREMIUM_PERCENTAGE +
      (selectMachineIn MACHINE_RATES
          (max g.dimensions.length g.dimensions.width * MOLD_BASE_MULTIPLIER)).ratePerHour /
        (60 / (BASE_CYCLE_TIME_S + g.wallThickness * THICKNESS_FACTOR) * p.cavities * 60) +
      (10000 + (selectMachineIn MACHINE_RATES
          (max g.dimensions.length g.dimensions.width * MOLD_BASE_MULTIPLIER)).ratePerHour * 100) /
        p.quantity := by
    linarith
  have hscrap := mul_pos hcbs (by rw [SCRAP_RATE]; norm_num : (0 : ℚ) < SCRAP_RATE)
  have htpp := mul_pos hcbs (by rw [SCRAP_RATE]; norm_num : (0 : ℚ) < 1 + SCRAP_RATE)
  have htq := mul_pos htpp hq
  have hbase : BASE_CYCLE_TIME_S ≤ BASE_CYCLE_TIME_S + g.wallThickness * THICKNESS_FACTOR := by
    linarith
  rw [useQuoteCalculator,
    computeQuote_pos _ _ _ _ (ne_of_gt hv) (not_le.mpr hq) (not_le.mpr hc)]
  exact ⟨_, rfl, hmc, hmach, hmold, hcp, hscrap, htpp, htq, hbase, hpph⟩

/-- C10 witness: positivity of every field at a concrete valid input. -/
theorem C10_breakdown_positive_witness :
    ∃ bd,
      useQuoteCalculator
        { materialId := "PC (Polycarbonate)", quantity := 250, cavities := 4,
          color := "custom" }
        { volume := 32.5, dimensions := { length := 120, width := 80, height := 40 },
          wallThickness := 2.4, accuracy := "medium" } = some bd ∧
      0 < bd.materialCost ∧ 0 < bd.machineCost ∧ 0 < bd.moldCost ∧
      0 < bd.colorPremium ∧ 0 < bd.scrapCost ∧ 0 < bd.totalPerPart ∧ 0 < bd.totalQuote ∧
      BASE_CYCLE_TIME_S ≤ bd.cycleTime ∧ 0 < bd.partsPerHour :=
  C10_breakdown_positive
    { materialId := "PC (Polycarbonate)", quantity := 250, cavities := 4, color := "custom" }
    { volume := 32.5, dimensions := { length := 120, width := 80, height := 40 },
      wallThickness := 2.4, accuracy := "medium" }
    (by norm_num) (by norm_num) (by norm_num) (by norm_num)
